import Mathlib

/-!
Shallow embedding of the Serendipity SNS backend
(src/backend/app/main.py, models.py, schemas.py).

Conventions of the embedding:
* timestamps (datetime.utcnow values) are integers counting seconds;
  timedelta(hours=h) is h * 3600, timedelta(days=d) is d * 86400;
* counters are integers (Python ints), so decrements are modelled exactly;
* the per-(device, pin) interaction table (PinInteraction, unique on
  (device_db_id, pin_id)) is modelled, for one fixed pin, as an association
  list from device ids to interaction kinds;
* fallible endpoints return Option / Except; HTTP 404 on an inactive or
  missing pin is Option.none.
-/

namespace Serendipity

/-- interaction_type column of PinInteraction: 'like', 'dislike' or 'report'. -/
inductive IKind where
  | like
  | dislike
  | report
deriving DecidableEq, Repr

/-- The Pin model (models.py): engagement counters, status flags and
timestamps.  The geometry column is kept outside this record (discovery
models it separately). -/
structure Pin where
  likes : Int
  dislikes : Int
  reports : Int
  passes_by : Int
  is_active : Bool
  is_suppressed : Bool
  is_community : Bool
  created_at : Int
  expires_at : Int
deriving DecidableEq, Repr

/-- timedelta(hours=1) in seconds. -/
def HOUR : Int := 3600

/-- ONE_YEAR = timedelta(days=365) in seconds (like_pin, main.py). -/
def ONE_YEAR : Int := 365 * 86400

/-- LIKE_BONUS = timedelta(days=7) in seconds (like_pin, main.py). -/
def LIKE_BONUS : Int := 7 * 86400

/-- update_suppression_status (main.py): sets is_suppressed from the formula
reports > likes * 2 and returns whether the flag changed. -/
def update_suppression_status (pin : Pin) : Pin × Bool :=
  let should_suppress : Bool := decide (pin.reports > pin.likes * 2)
  let changed : Bool := pin.is_suppressed != should_suppress
  ({ pin with is_suppressed := should_suppress }, changed)

/-- Per-pin interaction ledger: device id ↦ interaction kind.  The unique
constraint uq_device_pin_interaction allows at most one row per device for
this pin. -/
abbrev Ledger := List (Nat × IKind)

/-- Look up the interaction row of a device for this pin (the unfiltered
existing_interaction query in like_pin / dislike_pin). -/
def ledgerLookup (dev : Nat) : Ledger → Option IKind
  | [] => none
  | (d, k) :: t => if d == dev then some k else ledgerLookup dev t

/-- Mutate the kind of a device's interaction row in place
(existing_interaction.interaction_type = ...). -/
def ledgerSet (dev : Nat) (k : IKind) : Ledger → Ledger
  | [] => []
  | (d, k0) :: t => if d == dev then (d, k) :: t else (d, k0) :: ledgerSet dev k t

/-- The existing_report query in report_pin: filters on
interaction_type == 'report' as well as the (device, pin) key. -/
def hasReportRow (dev : Nat) : Ledger → Bool
  | [] => false
  | (d, k) :: t => (d == dev && k == IKind.report) || hasReportRow dev t

/-- Full state touched by the engagement endpoints for one fixed pin:
the pin row, its interaction rows and its ghost_pins rows. -/
structure PinSys where
  pin : Pin
  ledger : Ledger
  ghosts : List Nat
deriving DecidableEq, Repr

/-- Status-message tags of the JSON responses (the human-readable strings of
main.py reduced to their identity). -/
inductive Msg where
  | alreadyLiked
  | changedToLike
  | likedExtended
  | likedAtMax
  | alreadyDisliked
  | changedToDislike
  | disliked
  | alreadyReported
  | reported
  | passByRecorded
  | passByNotFound
deriving DecidableEq, Repr

/-- PinLikeResponse (schemas.py): payload of like / dislike / report. -/
structure PinLikeResponse where
  likes : Int
  dislikes : Int
  reports : Int
  is_suppressed : Bool
  expires_at : Int
  extended : Bool
  message : Msg
deriving DecidableEq, Repr

/-- Build a PinLikeResponse from the current pin row. -/
def mkLikeResponse (pin : Pin) (extended : Bool) (message : Msg) : PinLikeResponse :=
  { likes := pin.likes
    dislikes := pin.dislikes
    reports := pin.reports
    is_suppressed := pin.is_suppressed
    expires_at := pin.expires_at
    extended := extended
    message := message }

/-- The shared tail of like_pin for a fresh like (no prior interaction row,
or no device header at all): increment likes, recompute suppression, then the
like-extension rule — push expiry by LIKE_BONUS, capped at
created_at + ONE_YEAR, and record whether the expiry actually moved. -/
def likeFresh (pin : Pin) : Pin × Bool × Msg :=
  let pin1 := { pin with likes := pin.likes + 1 }
  let pin2 := (update_suppression_status pin1).1
  let max_expiry := pin.created_at + ONE_YEAR
  let new_expiry0 := pin.expires_at + LIKE_BONUS
  let new_expiry := if new_expiry0 > max_expiry then max_expiry else new_expiry0
  let extended : Bool := decide (new_expiry > pin.expires_at)
  if extended then
    ({ pin2 with expires_at := new_expiry }, true, Msg.likedExtended)
  else
    (pin2, false, Msg.likedAtMax)

/-- like_pin (main.py).  none models the 404 on a missing/inactive pin.
dev = none models a request without the X-Device-ID header (no interaction
row is consulted or written). -/
def like_pin (dev : Option Nat) (s : PinSys) : Option (PinSys × PinLikeResponse) :=
  if s.pin.is_active then some (
    match dev with
    | some d =>
      match ledgerLookup d s.ledger with
      | some IKind.like =>
          (s, mkLikeResponse s.pin false Msg.alreadyLiked)
      | some _ =>
          -- Change from dislike to like (also reached when the stored kind
          -- is 'report', since the code only tests for 'like').
          let pin1 := { s.pin with likes := s.pin.likes + 1,
                                   dislikes := s.pin.dislikes - 1 }
          let pin2 := (update_suppression_status pin1).1
          ({ s with pin := pin2, ledger := ledgerSet d IKind.like s.ledger },
           mkLikeResponse pin2 false Msg.changedToLike)
      | none =>
          let (pin2, extended, m) := likeFresh s.pin
          ({ s with pin := pin2, ledger := (d, IKind.like) :: s.ledger },
           mkLikeResponse pin2 extended m)
    | none =>
        let (pin2, extended, m) := likeFresh s.pin
        ({ s with pin := pin2 }, mkLikeResponse pin2 extended m))
  else none

/-- dislike_pin (main.py).  The fresh-dislike path increments dislikes and
commits without calling update_suppression_status (faithful to the code). -/
def dislike_pin (dev : Option Nat) (s : PinSys) : Option (PinSys × PinLikeResponse) :=
  if s.pin.is_active then some (
    match dev with
    | some d =>
      match ledgerLookup d s.ledger with
      | some IKind.dislike =>
          (s, mkLikeResponse s.pin false Msg.alreadyDisliked)
      | some _ =>
          -- Change from like to dislike.
          let pin1 := { s.pin with likes := s.pin.likes - 1,
                                   dislikes := s.pin.dislikes + 1 }
          let pin2 := (update_suppression_status pin1).1
          ({ s with pin := pin2, ledger := ledgerSet d IKind.dislike s.ledger },
           mkLikeResponse pin2 false Msg.changedToDislike)
      | none =>
          let pin1 := { s.pin with dislikes := s.pin.dislikes + 1 }
          ({ s with pin := pin1, ledger := (d, IKind.dislike) :: s.ledger },
           mkLikeResponse pin1 false Msg.disliked)
    | none =>
        let pin1 := { s.pin with dislikes := s.pin.dislikes + 1 }
        ({ s with pin := pin1 }, mkLikeResponse pin1 false Msg.disliked))
  else none

/-- The body of report_pin after the pin query (main.py).  The SELECT that
looks for an existing report row reads `seen` (the transaction's snapshot),
while the uniqueness check run by db.flush() reads `dbL` (the committed
table): a concurrent insert makes the two differ.  A uniqueness violation at
flush time is rolled back and answered as "already reported". -/
def report_flow (dev : Option Nat) (pin : Pin) (seen dbL : Ledger) :
    Pin × Ledger × PinLikeResponse :=
  match dev with
  | some d =>
    if hasReportRow d seen then
      (pin, dbL, mkLikeResponse pin false Msg.alreadyReported)
    else
      match ledgerLookup d dbL with
      | some _ =>
          -- IntegrityError on uq_device_pin_interaction: rollback, then the
          -- idempotent "already reported" response with the pin unchanged.
          (pin, dbL, mkLikeResponse pin false Msg.alreadyReported)
      | none =>
          let pin1 := { pin with reports := pin.reports + 1 }
          let pin2 := (update_suppression_status pin1).1
          (pin2, (d, IKind.report) :: dbL, mkLikeResponse pin2 false Msg.reported)
  | none =>
      let pin1 := { pin with reports := pin.reports + 1 }
      let pin2 := (update_suppression_status pin1).1
      (pin2, dbL, mkLikeResponse pin2 false Msg.reported)

/-- report_pin (main.py) in the sequential (race-free) case: the snapshot the
SELECT sees and the committed table coincide. -/
def report_pin (dev : Option Nat) (s : PinSys) : Option (PinSys × PinLikeResponse) :=
  if s.pin.is_active then
    let (pin', ledger', resp) := report_flow dev s.pin s.ledger s.ledger
    some ({ s with pin := pin', ledger := ledger' }, resp)
  else none

/-- Response of the /passby endpoint. -/
structure PassByResponse where
  message : Msg
  passes_by : Int
deriving DecidableEq, Repr

/-- record_pass_by (main.py).  ghostFail models an exception raised while
inserting the ghost_pins row: it is caught and logged, so the pass-by counter
increment still commits and the response still says recorded.  A missing or
inactive pin returns a normal response, not an error. -/
def record_pass_by (dev : Option Nat) (ghostFail : Bool) (s : PinSys) :
    PinSys × PassByResponse :=
  if s.pin.is_active then
    let pin1 := { s.pin with passes_by := s.pin.passes_by + 1 }
    let ghosts1 :=
      match dev with
      | some d =>
          if ghostFail then s.ghosts
          else if d ∈ s.ghosts then s.ghosts  -- ON CONFLICT DO NOTHING
          else d :: s.ghosts
      | none => s.ghosts
    ({ s with pin := pin1, ghosts := ghosts1 },
     { message := Msg.passByRecorded, passes_by := pin1.passes_by })
  else
    (s, { message := Msg.passByNotFound, passes_by := 0 })

/-- Clamp in create_pin (main.py): expiry_hours = max(1, min(duration, 730)). -/
def clampedDuration (duration_hours : Int) : Int :=
  max 1 (min duration_hours 730)

/-- The Pin row built by create_pin (main.py): zero counters, active,
unsuppressed, expiry = creation time + expiry_hours hours. -/
def createdPin (now : Int) (expiry_hours : Int) (is_community : Bool) : Pin :=
  { likes := 0
    dislikes := 0
    reports := 0
    passes_by := 0
    is_active := true
    is_suppressed := false
    is_community := is_community
    created_at := now
    expires_at := now + expiry_hours * HOUR }

/-- Device model (models.py): the fields driving the daily creation quota. -/
structure Device where
  pins_created_today : Int
  last_pin_reset : Option Int
deriving DecidableEq, Repr

/-- datetime.date() of a timestamp: the calendar-day number (floor division
by the number of seconds in a day). -/
def dateOf (t : Int) : Int := Int.fdiv t 86400

/-- The lazy-reset half of check_device_rate_limit (main.py): if the last
reset date is strictly before today's date, zero the counter and stamp now. -/
def rateLimitReset (dev : Device) (now : Int) : Device :=
  match dev.last_pin_reset with
  | some r =>
      if dateOf r < dateOf now then
        { dev with pins_created_today := 0, last_pin_reset := some now }
      else dev
  | none => dev

/-- check_device_rate_limit (main.py): lazily reset, then report whether the
device is still under the 20-pins-per-day ceiling. -/
def check_device_rate_limit (dev : Device) (now : Int) : Device × Bool :=
  let dev1 := rateLimitReset dev now
  (dev1, decide (dev1.pins_created_today < 20))

/-- PinCreate (schemas.py): request body of POST /pin.  Pydantic bounds:
content 1..500 chars, lat in [-90, 90], lon in [-180, 180],
duration_hours in [1, 168]. -/
structure PinCreate where
  content : String
  lat : ℚ
  lon : ℚ
  is_community : Bool
  duration_hours : Int
deriving DecidableEq, Repr

/-- The pydantic Field validation of PinCreate, run by FastAPI before the
create_pin handler body executes.  In particular duration_hours carries
ge=1, le=168. -/
def pinCreateValid (req : PinCreate) : Bool :=
  1 ≤ req.content.length && req.content.length ≤ 500 &&
  decide (-90 ≤ req.lat) && decide (req.lat ≤ 90) &&
  decide (-180 ≤ req.lon) && decide (req.lon ≤ 180) &&
  decide (1 ≤ req.duration_hours) && decide (req.duration_hours ≤ 168)

/-- Failure modes of POST /pin. -/
inductive CreateErr where
  | validation422
  | contentRejected
  | quotaExceeded
  | duplicatePin
deriving DecidableEq, Repr

/-- create_pin (main.py).  contentOk is the verdict of the external content
filter on req.content; isDup is the verdict of check_duplicate_pin (a PostGIS
query over the device's recent pins).  Guard order in the handler: content
validation, then quota, then duplicate check.  On success the device counter
is incremented and the new pin row is returned. -/
def create_pin (now : Int) (req : PinCreate) (dev : Option Device)
    (contentOk : Bool) (isDup : Bool) : Except CreateErr (Option Device × Pin) :=
  if ¬ pinCreateValid req then Except.error CreateErr.validation422
  else if ¬ contentOk then Except.error CreateErr.contentRejected
  else
    match dev with
    | some d =>
        let (d1, within) := check_device_rate_limit d now
        if ¬ within then Except.error CreateErr.quotaExceeded
        else if isDup then Except.error CreateErr.duplicatePin
        else
          let pin := createdPin now (clampedDuration req.duration_hours) req.is_community
          Except.ok (some { d1 with pins_created_today := d1.pins_created_today + 1 }, pin)
    | none =>
        let pin := createdPin now (clampedDuration req.duration_hours) req.is_community
        Except.ok (none, pin)

/-! ### Stats sync cooldown (get_pin_stats, main.py) -/

/-- The in-memory cooldown store _stats_cooldown:
device_id -> pin_id -> last accepted poll timestamp (time.time seconds,
modelled as rationals).  The nested dicts are flattened to one association
list keyed by the (device, pin) pair; updates cons the new entry in front and
lookups take the first match. -/
abbrev StatsCooldown := List ((String × Int) × ℚ)

/-- device_cooldowns.get(pin_id, 0): last accepted poll time, defaulting 0. -/
def cooldownLookup (cd : StatsCooldown) (dev : String) (pinId : Int) : ℚ :=
  (((cd.find? (fun e => e.1 == (dev, pinId))).map (fun e => e.2)).getD 0)

/-- _STATS_COOLDOWN_SECONDS (main.py). -/
def STATS_COOLDOWN_SECONDS : ℚ := 30

/-- Python's int(): truncation toward zero on a rational. -/
def pyInt (q : ℚ) : ℤ :=
  if q < 0 then -Int.floor (-q) else Int.floor q

/-- The cooldown gate at the top of get_pin_stats (main.py): rejects with the
remaining whole seconds (HTTP 429 with Retry-After) when less than 30 seconds
have passed since the last accepted poll of this (device, pin) pair, and
otherwise stamps the pair with now.  Returns (some remaining, unchanged store)
on rejection and (none, updated store) on acceptance. -/
def statsCooldownGate (cd : StatsCooldown) (dev : String) (pinId : Int) (now : ℚ) :
    Option ℤ × StatsCooldown :=
  let last := cooldownLookup cd dev pinId
  if now - last < STATS_COOLDOWN_SECONDS then
    (some (pyInt (STATS_COOLDOWN_SECONDS - (now - last))), cd)
  else
    (none, ((dev, pinId), now) :: cd)

/-! ### Discovery (discover_pins, main.py) -/

/-- One row of the pins table as read by the discovery SQL, with the
PostGIS-computed values for this query: ST_Y/ST_X of the geometry and
ST_Distance from the caller's point (geodesic distance in meters, computed by
the external spatial store and taken here as given per row). -/
structure DbPinRow where
  id : Int
  content : String
  likes : Int
  dislikes : Int
  reports : Int
  passes_by : Int
  is_suppressed : Bool
  is_community : Bool
  device_db_id : Option Int
  expires_at : Int
  latitude : ℚ
  longitude : ℚ
  distance_meters : ℚ
  is_active : Bool
deriving DecidableEq, Repr

/-- Ordering of the SQL ORDER BY distance_meters ASC. -/
def distLe (a b : DbPinRow) : Prop := a.distance_meters ≤ b.distance_meters

instance : DecidableRel distLe := fun a b => inferInstanceAs (Decidable (_ ≤ _))

instance : IsTotal DbPinRow distLe := ⟨fun a b => le_total _ _⟩

instance : IsTrans DbPinRow distLe := ⟨fun _ _ _ => le_trans⟩

/-- The discovery SQL (main.py): WHERE is_active AND expires_at > NOW() AND
ST_DWithin(geom, point, radius) — i.e. distance at most radius — ordered by
distance ascending, LIMIT 50. -/
def discoverSql (now : Int) (radius : ℚ) (table : List DbPinRow) : List DbPinRow :=
  ((table.filter (fun p =>
      p.is_active && decide (now < p.expires_at) && decide (p.distance_meters ≤ radius))
    ).insertionSort distLe).take 50

/-- Round a rational to n decimal places (Python round(x, n) on the values
the handler reports). -/
def roundTo (n : Nat) (q : ℚ) : ℚ := ((round (q * 10 ^ n) : ℤ) : ℚ) / 10 ^ n

/-- PinDiscovery (schemas.py): one discovered pin as returned to the caller. -/
structure PinDiscovery where
  id : Int
  content : String
  latitude : ℚ
  longitude : ℚ
  distance_meters : ℚ
  likes : Int
  dislikes : Int
  reports : Int
  passes_by : Int
  is_suppressed : Bool
  is_community : Bool
  is_own_pin : Bool
  expires_at : Int
deriving DecidableEq, Repr

/-- The row-to-response conversion in discover_pins: coordinates rounded to 7
decimals, distance to 2, is_own_pin iff the caller's device row matches the
pin's owning device. -/
def rowToDiscovery (currentDevice : Option Int) (row : DbPinRow) : PinDiscovery :=
  { id := row.id
    content := row.content
    latitude := roundTo 7 row.latitude
    longitude := roundTo 7 row.longitude
    distance_meters := roundTo 2 row.distance_meters
    likes := row.likes
    dislikes := row.dislikes
    reports := row.reports
    passes_by := row.passes_by
    is_suppressed := row.is_suppressed
    is_community := row.is_community
    is_own_pin :=
      match currentDevice, row.device_db_id with
      | some c, some d => c == d
      | _, _ => false
    expires_at := row.expires_at }

/-- discover_pins (main.py): run the SQL, then map each row to the response
schema. -/
def discover_pins (now : Int) (radius : ℚ) (currentDevice : Option Int)
    (table : List DbPinRow) : List PinDiscovery :=
  (discoverSql now radius table).map (rowToDiscovery currentDevice)

/-! ### Reachable engagement states and the suppression invariant -/

/-- The spec's suppression invariant for a pin row:
is_suppressed == (reports > likes * 2). -/
def suppressionInvariant (p : Pin) : Prop :=
  p.is_suppressed = decide (p.reports > p.likes * 2)

instance (p : Pin) : Decidable (suppressionInvariant p) :=
  inferInstanceAs (Decidable (_ = _))

/-- States of one pin (row, interactions, ghost sightings) reachable from its
creation through the engagement endpoints. -/
inductive Reachable : PinSys → Prop where
  | create (now hours : Int) (community : Bool) :
      Reachable { pin := createdPin now (clampedDuration hours) community,
                  ledger := [], ghosts := [] }
  | like (dev : Option Nat) (s s' : PinSys) (r : PinLikeResponse)
      (h : Reachable s) (hstep : like_pin dev s = some (s', r)) : Reachable s'
  | dislike (dev : Option Nat) (s s' : PinSys) (r : PinLikeResponse)
      (h : Reachable s) (hstep : dislike_pin dev s = some (s', r)) : Reachable s'
  | report (dev : Option Nat) (s s' : PinSys) (r : PinLikeResponse)
      (h : Reachable s) (hstep : report_pin dev s = some (s', r)) : Reachable s'
  | passby (dev : Option Nat) (ghostFail : Bool) (s : PinSys) (h : Reachable s) :
      Reachable (record_pass_by dev ghostFail s).1

/-! ### Concrete fixtures and claim predicates -/

/-- A freshly created pin: one day of life, zero counters. -/
def pinA : Pin :=
  { likes := 0, dislikes := 0, reports := 0, passes_by := 0,
    is_active := true, is_suppressed := false, is_community := false,
    created_at := 0, expires_at := 86400 }

/-- The state of pinA with no interactions. -/
def sysA : PinSys := { pin := pinA, ledger := [], ghosts := [] }

/-- pinA after device 1 disliked it. -/
def sysDisliked : PinSys :=
  { pin := { pinA with dislikes := 1 },
    ledger := [(1, IKind.dislike)], ghosts := [] }

/-- pinA after device 1 liked it. -/
def sysLiked : PinSys :=
  { pin := { pinA with likes := 1, expires_at := 86400 + 604800 },
    ledger := [(1, IKind.like)], ghosts := [] }

/-- sysDisliked after device 1 changes its vote to like: counters moved, row
flipped, expiry untouched. -/
def sysFlipResult : PinSys :=
  { pin := { pinA with likes := 1 }, ledger := [(1, IKind.like)], ghosts := [] }

/-- sysA after device 2 reported it: one report against zero likes trips the
suppression formula. -/
def sysReported : PinSys :=
  { pin := { pinA with reports := 1, is_suppressed := true },
    ledger := [(2, IKind.report)], ghosts := [] }

/-- Claim C3 as stated, at one device and one starting state: a like request
from a device whose prior interaction is a dislike flips the row to like,
moves the counters, recomputes suppression, and then applies the extension
rule (expiry pushed forward by LIKE_BONUS clamped at created_at + ONE_YEAR,
with the extended flag recording whether the expiry moved). -/
def C3ClaimAt (dev : Nat) (s : PinSys) : Prop :=
  ∀ s' r, ledgerLookup dev s.ledger = some IKind.dislike →
    like_pin (some dev) s = some (s', r) →
      ledgerLookup dev s'.ledger = some IKind.like ∧
      s'.pin.likes = s.pin.likes + 1 ∧
      s'.pin.dislikes = s.pin.dislikes - 1 ∧
      suppressionInvariant s'.pin ∧
      s'.pin.expires_at =
        min (s.pin.expires_at + LIKE_BONUS) (s.pin.created_at + ONE_YEAR) ∧
      (r.extended = true ↔ s.pin.expires_at < s'.pin.expires_at)

/-- The guarantees of discovery (claim C5) for one query: at most 50 results;
every result comes from a stored row that is active, unexpired and within the
radius, with distance rounded to 2 decimals and coordinates to 7; results are
sorted by non-decreasing reported distance. -/
def DiscoverOk (now : Int) (radius : ℚ) (cur : Option Int) (table : List DbPinRow) : Prop :=
  (discover_pins now radius cur table).length ≤ 50 ∧
  (∀ q ∈ discover_pins now radius cur table, ∃ row ∈ table,
      row.is_active = true ∧ now < row.expires_at ∧
      row.distance_meters ≤ radius ∧
      q.distance_meters = roundTo 2 row.distance_meters ∧
      q.latitude = roundTo 7 row.latitude ∧
      q.longitude = roundTo 7 row.longitude ∧
      q.expires_at = row.expires_at ∧ q.is_suppressed = row.is_suppressed) ∧
  (discover_pins now radius cur table).Sorted
    (fun a b => a.distance_meters ≤ b.distance_meters)

/-- A stored pin row 12 meters from the caller. -/
def rowNear : DbPinRow :=
  { id := 1, content := "near", likes := 2, dislikes := 0, reports := 0,
    passes_by := 0, is_suppressed := false, is_community := false,
    device_db_id := some 7, expires_at := 1000, latitude := 35.6762,
    longitude := 139.6503, distance_meters := 12.345, is_active := true }

/-- A stored pin row 40 meters from the caller. -/
def rowFar : DbPinRow :=
  { id := 2, content := "far", likes := 0, dislikes := 1, reports := 3,
    passes_by := 2, is_suppressed := true, is_community := false,
    device_db_id := none, expires_at := 2000, latitude := 35.6765,
    longitude := 139.6505, distance_meters := 40.5, is_active := true }

/-- An expired stored row (must never be returned). -/
def rowExpired : DbPinRow :=
  { rowNear with id := 3, expires_at := 5, distance_meters := 1 }

/-- A create-pin request asking for 200 hours of life (inside the spec's
claimed [1, 730] clamp range, outside the schema's [1, 168] bound). -/
def reqLong : PinCreate :=
  { content := "hello world", lat := 35, lon := 139,
    is_community := false, duration_hours := 200 }

/-- A create-pin request asking for 24 hours of life. -/
def reqDay : PinCreate :=
  { content := "hello world", lat := 35, lon := 139,
    is_community := false, duration_hours := 24 }

/-- A device that already created 20 pins today (last reset at noon of
day 0). -/
def devAtQuota : Device :=
  { pins_created_today := 20, last_pin_reset := some 43200 }

theorem update_suppression_inv (p : Pin) :
    suppressionInvariant (update_suppression_status p).1 := by
  simp [suppressionInvariant, update_suppression_status]

theorem likeFresh_inv (p : Pin) : suppressionInvariant (likeFresh p).1 := by
  simp only [likeFresh]
  split <;> split <;> simp [suppressionInvariant, update_suppression_status]

theorem like_pin_inv (dev : Option Nat) (s s' : PinSys) (r : PinLikeResponse)
    (hstep : like_pin dev s = some (s', r)) (h : suppressionInvariant s.pin) :
    suppressionInvariant s'.pin := by
  rcases dev with _ | d <;> simp only [like_pin] at hstep
  · split at hstep
    · rcases hlf : likeFresh s.pin with ⟨p2, e2, m2⟩
      rw [hlf] at hstep
      simp only [Option.some.injEq, Prod.mk.injEq] at hstep
      obtain ⟨hs, -⟩ := hstep
      subst hs
      have hinv := likeFresh_inv s.pin
      rw [hlf] at hinv
      simpa using hinv
    · simp at hstep
  · split at hstep
    · split at hstep
      · simp only [Option.some.injEq, Prod.mk.injEq] at hstep
        obtain ⟨hs, -⟩ := hstep
        subst hs
        exact h
      · simp only [Option.some.injEq, Prod.mk.injEq] at hstep
        obtain ⟨hs, -⟩ := hstep
        subst hs
        exact update_suppression_inv _
      · rcases hlf : likeFresh s.pin with ⟨p2, e2, m2⟩
        rw [hlf] at hstep
        simp only [Option.some.injEq, Prod.mk.injEq] at hstep
        obtain ⟨hs, -⟩ := hstep
        subst hs
        have hinv := likeFresh_inv s.pin
        rw [hlf] at hinv
        simpa using hinv
    · simp at hstep

theorem dislike_pin_inv (dev : Option Nat) (s s' : PinSys) (r : PinLikeResponse)
    (hstep : dislike_pin dev s = some (s', r)) (h : suppressionInvariant s.pin) :
    suppressionInvariant s'.pin := by
  rcases dev with _ | d <;> simp only [dislike_pin] at hstep
  · split at hstep
    · simp only [Option.some.injEq, Prod.mk.injEq] at hstep
      obtain ⟨hs, -⟩ := hstep
      -- fresh dislike: likes, reports and is_suppressed untouched
      subst hs
      simpa [suppressionInvariant] using h
    · simp at hstep
  · split at hstep
    · split at hstep
      · simp only [Option.some.injEq, Prod.mk.injEq] at hstep
        obtain ⟨hs, -⟩ := hstep
        subst hs
        exact h
      · simp only [Option.some.injEq, Prod.mk.injEq] at hstep
        obtain ⟨hs, -⟩ := hstep
        subst hs
        exact update_suppression_inv _
      · simp only [Option.some.injEq, Prod.mk.injEq] at hstep
        obtain ⟨hs, -⟩ := hstep
        subst hs
        simpa [suppressionInvariant] using h
    · simp at hstep

theorem report_flow_inv (dev : Option Nat) (p : Pin) (seen dbL : Ledger)
    (h : suppressionInvariant p) :
    suppressionInvariant (report_flow dev p seen dbL).1 := by
  rcases dev with _ | d <;> simp only [report_flow]
  · exact update_suppression_inv _
  · split
    · exact h
    · split
      · exact h
      · exact update_suppression_inv _

theorem report_pin_inv (dev : Option Nat) (s s' : PinSys) (r : PinLikeResponse)
    (hstep : report_pin dev s = some (s', r)) (h : suppressionInvariant s.pin) :
    suppressionInvariant s'.pin := by
  simp only [report_pin] at hstep
  split at hstep
  · rcases hrf : report_flow dev s.pin s.ledger s.ledger with ⟨p', l', resp⟩
    rw [hrf] at hstep
    simp only [Option.some.injEq, Prod.mk.injEq] at hstep
    obtain ⟨hs, -⟩ := hstep
    subst hs
    have hinv := report_flow_inv dev s.pin s.ledger s.ledger h
    rw [hrf] at hinv
    simpa using hinv
  · simp at hstep

theorem record_pass_by_inv (dev : Option Nat) (ghostFail : Bool) (s : PinSys)
    (h : suppressionInvariant s.pin) :
    suppressionInvariant (record_pass_by dev ghostFail s).1.pin := by
  simp only [record_pass_by]
  split
  · simpa [suppressionInvariant] using h
  · exact h

/-- C1.  Every engagement operation re-establishes
is_suppressed == (reports > likes * 2): pins are created with zero counters
and is_suppressed false, and like_pin, dislike_pin, report_pin and
record_pass_by all preserve the equality, so it holds in every reachable
state of a pin. -/
theorem suppression_invariant_reachable (s : PinSys) (h : Reachable s) :
    suppressionInvariant s.pin := by
  induction h with
  | create now hours community => simp [suppressionInvariant, createdPin]
  | like dev s s' r h hstep ih => exact like_pin_inv dev s s' r hstep ih
  | dislike dev s s' r h hstep ih => exact dislike_pin_inv dev s s' r hstep ih
  | report dev s s' r h hstep ih => exact report_pin_inv dev s s' r hstep ih
  | passby dev ghostFail s h ih => exact record_pass_by_inv dev ghostFail s ih

/-- Witness for C1: the invariant at the concrete state reached by creating a
24-hour pin and having device 1 like it. -/
theorem suppression_invariant_reachable_witness :
    suppressionInvariant sysLiked.pin :=
  suppression_invariant_reachable sysLiked
    (Reachable.like (some 1)
      { pin := createdPin 0 (clampedDuration 24) false, ledger := [], ghosts := [] }
      sysLiked (mkLikeResponse sysLiked.pin true Msg.likedExtended)
      (Reachable.create 0 24 false) (by decide))

/-! ### C2: the like-extension rule -/

theorem likeFresh_expiry (p : Pin) :
    p.expires_at ≤ (likeFresh p).1.expires_at ∧
    (p.expires_at ≤ p.created_at + ONE_YEAR →
      (likeFresh p).1.expires_at ≤ p.created_at + ONE_YEAR) ∧
    ((likeFresh p).2.1 = true ↔ p.expires_at < (likeFresh p).1.expires_at) ∧
    ((likeFresh p).2.1 = true →
      (likeFresh p).1.expires_at =
        min (p.expires_at + LIKE_BONUS) (p.created_at + ONE_YEAR)) := by
  simp only [likeFresh, update_suppression_status, LIKE_BONUS, ONE_YEAR]
  split <;> split <;> refine ⟨?_, ?_, ?_, ?_⟩ <;> simp_all <;> omega

/-- C2.  Liking never decreases expires_at; the created_at + ONE_YEAR cap is
preserved; the response's extended flag is true exactly when the expiry
moved; and when it moved, the new expiry is exactly the old one pushed by
LIKE_BONUS, clamped at created_at + ONE_YEAR. -/
theorem like_pin_expiry (dev : Option Nat) (s s' : PinSys) (r : PinLikeResponse)
    (hstep : like_pin dev s = some (s', r)) :
    s.pin.expires_at ≤ s'.pin.expires_at ∧
    (s.pin.expires_at ≤ s.pin.created_at + ONE_YEAR →
      s'.pin.expires_at ≤ s.pin.created_at + ONE_YEAR) ∧
    (r.extended = true ↔ s.pin.expires_at < s'.pin.expires_at) ∧
    (r.extended = true →
      s'.pin.expires_at =
        min (s.pin.expires_at + LIKE_BONUS) (s.pin.created_at + ONE_YEAR)) := by
  rcases dev with _ | d <;> simp only [like_pin] at hstep
  · split at hstep
    · rcases hlf : likeFresh s.pin with ⟨p2, e2, m2⟩
      rw [hlf] at hstep
      simp only [Option.some.injEq, Prod.mk.injEq] at hstep
      obtain ⟨hs, hr⟩ := hstep
      subst hs; subst hr
      have hx := likeFresh_expiry s.pin
      rw [hlf] at hx
      simpa [mkLikeResponse] using hx
    · simp at hstep
  · split at hstep
    · split at hstep
      · simp only [Option.some.injEq, Prod.mk.injEq] at hstep
        obtain ⟨hs, hr⟩ := hstep
        subst hs; subst hr
        simp [mkLikeResponse]
      · simp only [Option.some.injEq, Prod.mk.injEq] at hstep
        obtain ⟨hs, hr⟩ := hstep
        subst hs; subst hr
        simp [mkLikeResponse, update_suppression_status]
      · rcases hlf : likeFresh s.pin with ⟨p2, e2, m2⟩
        rw [hlf] at hstep
        simp only [Option.some.injEq, Prod.mk.injEq] at hstep
        obtain ⟨hs, hr⟩ := hstep
        subst hs; subst hr
        have hx := likeFresh_expiry s.pin
        rw [hlf] at hx
        simpa [mkLikeResponse] using hx
    · simp at hstep

/-- Witness for C2 at a concrete fresh like on a one-day pin. -/
theorem like_pin_expiry_witness :
    sysA.pin.expires_at ≤ sysLiked.pin.expires_at ∧
    (sysA.pin.expires_at ≤ sysA.pin.created_at + ONE_YEAR →
      sysLiked.pin.expires_at ≤ sysA.pin.created_at + ONE_YEAR) ∧
    ((mkLikeResponse sysLiked.pin true Msg.likedExtended).extended = true ↔
      sysA.pin.expires_at < sysLiked.pin.expires_at) ∧
    ((mkLikeResponse sysLiked.pin true Msg.likedExtended).extended = true →
      sysLiked.pin.expires_at =
        min (sysA.pin.expires_at + LIKE_BONUS) (sysA.pin.created_at + ONE_YEAR)) :=
  like_pin_expiry (some 1) sysA sysLiked
    (mkLikeResponse sysLiked.pin true Msg.likedExtended) (by decide)

/-! ### C3: the dislike-to-like flip -/

theorem ledgerLookup_ledgerSet_self (dev : Nat) (k : IKind) :
    ∀ l : Ledger, (ledgerLookup dev l).isSome →
      ledgerLookup dev (ledgerSet dev k l) = some k := by
  intro l
  induction l with
  | nil => simp [ledgerLookup]
  | cons e t ih =>
      obtain ⟨d, k0⟩ := e
      by_cases hd : d == dev
      · intro _
        simp [ledgerLookup, ledgerSet, hd]
      · intro hl
        have ht := ih (by simpa [ledgerLookup, hd] using hl)
        simpa [ledgerLookup, ledgerSet, hd] using ht

/-- Counterexample to C3 as stated: at the concrete state where device 1 has
disliked a fresh one-day pin, the flip to like does NOT push the expiry
forward by LIKE_BONUS — the flip path returns before the extension rule. -/
theorem like_flip_extension_counterexample : ¬ C3ClaimAt 1 sysDisliked := by
  intro h
  obtain ⟨-, -, -, -, hexp, -⟩ :=
    h sysFlipResult (mkLikeResponse sysFlipResult.pin false Msg.changedToLike)
      (by decide) (by decide)
  exact absurd hexp (by decide)

/-- C3 amended.  A like request from a device whose prior interaction is a
dislike flips the row to like, increments likes, decrements dislikes and
recomputes suppression, but does NOT apply the extension rule: expires_at is
unchanged and the response's extended flag is false. -/
theorem like_flip_no_extension (dev : Nat) (s s' : PinSys) (r : PinLikeResponse)
    (hprior : ledgerLookup dev s.ledger = some IKind.dislike)
    (hstep : like_pin (some dev) s = some (s', r)) :
    ledgerLookup dev s'.ledger = some IKind.like ∧
    s'.pin.likes = s.pin.likes + 1 ∧
    s'.pin.dislikes = s.pin.dislikes - 1 ∧
    suppressionInvariant s'.pin ∧
    s'.pin.expires_at = s.pin.expires_at ∧
    r.extended = false := by
  simp only [like_pin] at hstep
  split at hstep
  · rw [hprior] at hstep
    simp only [Option.some.injEq, Prod.mk.injEq] at hstep
    obtain ⟨hs, hr⟩ := hstep
    subst hs; subst hr
    refine ⟨?_, ?_, ?_, ?_, ?_, ?_⟩
    · exact ledgerLookup_ledgerSet_self dev IKind.like s.ledger (by simp [hprior])
    · simp [update_suppression_status]
    · simp [update_suppression_status]
    · exact update_suppression_inv _
    · simp [update_suppression_status]
    · simp [mkLikeResponse]
  · simp at hstep

/-- Witness for the amended C3 at the concrete disliked state. -/
theorem like_flip_no_extension_witness :
    ledgerLookup 1 sysFlipResult.ledger = some IKind.like ∧
    sysFlipResult.pin.likes = sysDisliked.pin.likes + 1 ∧
    sysFlipResult.pin.dislikes = sysDisliked.pin.dislikes - 1 ∧
    suppressionInvariant sysFlipResult.pin ∧
    sysFlipResult.pin.expires_at = sysDisliked.pin.expires_at ∧
    (mkLikeResponse sysFlipResult.pin false Msg.changedToLike).extended = false :=
  like_flip_no_extension 1 sysDisliked sysFlipResult
    (mkLikeResponse sysFlipResult.pin false Msg.changedToLike) (by decide) (by decide)

/-! ### C4 and C10: report idempotency and the uniqueness constraint -/

theorem hasReportRow_false_of_lookup_none (dev : Nat) :
    ∀ l : Ledger, ledgerLookup dev l = none → hasReportRow dev l = false := by
  intro l
  induction l with
  | nil => intro _; rfl
  | cons e t ih =>
      obtain ⟨d, k0⟩ := e
      intro hl
      by_cases hd : (d == dev) = true
      · simp [ledgerLookup, hd] at hl
      · have hb : (d == dev) = false := by simpa using hd
        simp only [ledgerLookup, hb] at hl
        simp only [Bool.false_eq_true, if_false] at hl
        simp [hasReportRow, hb, ih hl]

theorem hasReportRow_false_of_not_mem (d : Nat) :
    ∀ l : Ledger, d ∉ l.map Prod.fst → hasReportRow d l = false := by
  intro l
  induction l with
  | nil => intro _; rfl
  | cons e t ih =>
      obtain ⟨d0, k0⟩ := e
      intro h
      simp only [List.map_cons, List.mem_cons, not_or] at h
      have hd : (d0 == d) = false := beq_eq_false_iff_ne.mpr (Ne.symm h.1)
      simp [hasReportRow, hd, ih h.2]

theorem hasReportRow_false_of_vote (d : Nat) (k : IKind) (hkr : k ≠ IKind.report) :
    ∀ l : Ledger, (l.map Prod.fst).Nodup → ledgerLookup d l = some k →
      hasReportRow d l = false := by
  intro l
  induction l with
  | nil => intro _ h; simp [ledgerLookup] at h
  | cons e t ih =>
      obtain ⟨d0, k0⟩ := e
      intro hnd hk
      simp only [List.map_cons, List.nodup_cons] at hnd
      by_cases hd : (d0 == d) = true
      · simp only [ledgerLookup, hd, if_true, Option.some.injEq] at hk
        subst hk
        have hd' : d0 = d := by simpa using hd
        have ht : hasReportRow d t = false :=
          hasReportRow_false_of_not_mem d t (hd' ▸ hnd.1)
        have hkb : (k0 == IKind.report) = false := beq_eq_false_iff_ne.mpr hkr
        simp [hasReportRow, hkb, ht]
      · have hb : (d0 == d) = false := by simpa using hd
        simp only [ledgerLookup, hb] at hk
        simp only [Bool.false_eq_true, if_false] at hk
        simp [hasReportRow, hb, ih hnd.2 hk]

/-- C4.  A fresh report increments the reports counter once and leaves the
other counters and the expiry alone; a second report from the same device is
a no-op returning the unchanged state with the already-reported message;
and a concurrent duplicate insert — the SELECT saw no report row but the
committed table already holds a row for this (device, pin) — trips the
uniqueness constraint at flush time and is converted into the same
idempotent already-reported response with nothing changed. -/
theorem report_pin_idempotent (d : Nat) (s s1 : PinSys) (r1 : PinLikeResponse)
    (hfresh : ledgerLookup d s.ledger = none)
    (hstep : report_pin (some d) s = some (s1, r1)) :
    s1.pin.reports = s.pin.reports + 1 ∧
    s1.pin.likes = s.pin.likes ∧
    s1.pin.dislikes = s.pin.dislikes ∧
    s1.pin.expires_at = s.pin.expires_at ∧
    report_pin (some d) s1 =
      some (s1, mkLikeResponse s1.pin false Msg.alreadyReported) ∧
    (∀ (pin : Pin) (seen dbL : Ledger) (k : IKind),
       hasReportRow d seen = false → ledgerLookup d dbL = some k →
       report_flow (some d) pin seen dbL =
         (pin, dbL, mkLikeResponse pin false Msg.alreadyReported)) := by
  have hnorep := hasReportRow_false_of_lookup_none d s.ledger hfresh
  simp only [report_pin, report_flow, hnorep, hfresh] at hstep
  split at hstep
  · rename_i hactive
    simp only [Bool.false_eq_true, if_false, Option.some.injEq, Prod.mk.injEq] at hstep
    obtain ⟨hs, hr⟩ := hstep
    subst hs; subst hr
    refine ⟨?_, ?_, ?_, ?_, ?_, ?_⟩
    · simp [update_suppression_status]
    · simp [update_suppression_status]
    · simp [update_suppression_status]
    · simp [update_suppression_status]
    · simp [report_pin, report_flow, update_suppression_status, hasReportRow, hactive]
    · intro pin seen dbL k h1 h2
      simp [report_flow, h1, h2]
  · simp at hstep

/-- Witness for C4: device 2 reports the fresh pin, reports again, and the
race clause at a committed like row. -/
theorem report_pin_idempotent_witness :
    sysReported.pin.reports = sysA.pin.reports + 1 ∧
    sysReported.pin.likes = sysA.pin.likes ∧
    sysReported.pin.dislikes = sysA.pin.dislikes ∧
    sysReported.pin.expires_at = sysA.pin.expires_at ∧
    report_pin (some 2) sysReported =
      some (sysReported, mkLikeResponse sysReported.pin false Msg.alreadyReported) ∧
    report_flow (some 2) pinA [] [(2, IKind.like)] =
      (pinA, [(2, IKind.like)], mkLikeResponse pinA false Msg.alreadyReported) := by
  have h := report_pin_idempotent 2 sysA sysReported
    (mkLikeResponse sysReported.pin false Msg.reported) (by decide) (by decide)
  exact ⟨h.1, h.2.1, h.2.2.1, h.2.2.2.1, h.2.2.2.2.1,
    h.2.2.2.2.2 pinA [] [(2, IKind.like)] IKind.like (by decide) (by decide)⟩

/-- C10.  A report request from a device that already voted (like or dislike)
on the pin never increments reports and never touches the stored interaction:
the report-filtered SELECT finds nothing, the insert trips the (device, pin)
uniqueness constraint, and the request is answered as already-reported with
the whole state unchanged. -/
theorem report_after_vote (d : Nat) (s : PinSys) (k : IKind)
    (hactive : s.pin.is_active = true)
    (hnodup : (s.ledger.map Prod.fst).Nodup)
    (hk : ledgerLookup d s.ledger = some k) (hkr : k ≠ IKind.report) :
    report_pin (some d) s =
      some (s, mkLikeResponse s.pin false Msg.alreadyReported) := by
  have hnorep := hasReportRow_false_of_vote d k hkr s.ledger hnodup hk
  simp [report_pin, report_flow, hactive, hnorep, hk]

/-- Witness for C10: device 1, holding a dislike row, reports the pin. -/
theorem report_after_vote_witness :
    report_pin (some 1) sysDisliked =
      some (sysDisliked, mkLikeResponse sysDisliked.pin false Msg.alreadyReported) :=
  report_after_vote 1 sysDisliked IKind.dislike (by decide) (by decide)
    (by decide) (by decide)

/-! ### C9: ghost-sighting failure never rolls back the pass-by counter -/

/-- C9.  For an active pin, a pass-by always increments passes_by by one and
reports success, whether or not the ghost-sighting insert fails; nothing else
on the pin, and no interaction row, is touched. -/
theorem pass_by_ghost_failure (dev : Option Nat) (ghostFail : Bool) (s : PinSys)
    (hactive : s.pin.is_active = true) :
    (record_pass_by dev ghostFail s).1.pin.passes_by = s.pin.passes_by + 1 ∧
    (record_pass_by dev ghostFail s).2.message = Msg.passByRecorded ∧
    (record_pass_by dev ghostFail s).2.passes_by = s.pin.passes_by + 1 ∧
    (record_pass_by dev ghostFail s).1.pin.likes = s.pin.likes ∧
    (record_pass_by dev ghostFail s).1.pin.reports = s.pin.reports ∧
    (record_pass_by dev ghostFail s).1.pin.expires_at = s.pin.expires_at ∧
    (record_pass_by dev ghostFail s).1.ledger = s.ledger := by
  simp [record_pass_by, hactive]

/-- Witness for C9: device 3 passes by the fresh pin while the ghost insert
fails. -/
theorem pass_by_ghost_failure_witness :
    (record_pass_by (some 3) true sysA).1.pin.passes_by = sysA.pin.passes_by + 1 ∧
    (record_pass_by (some 3) true sysA).2.message = Msg.passByRecorded ∧
    (record_pass_by (some 3) true sysA).2.passes_by = sysA.pin.passes_by + 1 ∧
    (record_pass_by (some 3) true sysA).1.pin.likes = sysA.pin.likes ∧
    (record_pass_by (some 3) true sysA).1.pin.reports = sysA.pin.reports ∧
    (record_pass_by (some 3) true sysA).1.pin.expires_at = sysA.pin.expires_at ∧
    (record_pass_by (some 3) true sysA).1.ledger = sysA.ledger :=
  pass_by_ghost_failure (some 3) true sysA (by decide)

/-! ### C5: discovery guarantees -/

theorem roundTo_mono (n : Nat) {a b : ℚ} (h : a ≤ b) : roundTo n a ≤ roundTo n b := by
  unfold roundTo
  have h10 : (0:ℚ) < 10 ^ n := by positivity
  have hm : a * 10 ^ n ≤ b * 10 ^ n := mul_le_mul_of_nonneg_right h (le_of_lt h10)
  have hr : round (a * 10 ^ n) ≤ round (b * 10 ^ n) := by
    rw [round_eq, round_eq]
    exact Int.floor_mono (by linarith)
  exact (div_le_div_right h10).mpr (Int.cast_le.mpr hr)

/-- C5.  Discovery returns at most 50 pins; every returned pin corresponds to
a stored row that is active, unexpired and within the requested radius, with
its distance rounded to 2 decimals and its coordinates to 7; and the results
are sorted by non-decreasing distance. -/
theorem discover_pins_ok (now : Int) (radius : ℚ) (cur : Option Int)
    (table : List DbPinRow) (h1 : 10 ≤ radius) (h2 : radius ≤ 2000) :
    DiscoverOk now radius cur table := by
  refine ⟨?_, ?_, ?_⟩
  · simp only [discover_pins, discoverSql, List.length_map]
    exact List.length_take_le 50 _
  · intro q hq
    simp only [discover_pins, discoverSql, List.mem_map] at hq
    obtain ⟨row, hrow, rfl⟩ := hq
    have hrow1 := List.take_subset 50 _ hrow
    rw [List.mem_insertionSort] at hrow1
    rw [List.mem_filter] at hrow1
    obtain ⟨htab, hpred⟩ := hrow1
    simp only [Bool.and_eq_true, decide_eq_true_eq] at hpred
    exact ⟨row, htab, hpred.1.1, hpred.1.2, hpred.2,
      by simp [rowToDiscovery], by simp [rowToDiscovery], by simp [rowToDiscovery],
      rfl, rfl⟩
  · have hs : ((table.filter (fun p =>
        p.is_active && decide (now < p.expires_at) &&
        decide (p.distance_meters ≤ radius))).insertionSort distLe).Sorted distLe :=
      List.sorted_insertionSort distLe _
    have ht : (discoverSql now radius table).Sorted distLe :=
      List.Pairwise.sublist (List.take_sublist _ _) hs
    exact List.Pairwise.map _ (fun a b hab => roundTo_mono 2 hab) ht

/-- Witness for C5 at a concrete three-row table and radius 50. -/
theorem discover_pins_ok_witness :
    DiscoverOk 100 50 (some 7) [rowFar, rowNear, rowExpired] :=
  discover_pins_ok 100 50 (some 7) [rowFar, rowNear, rowExpired]
    (by norm_num) (by norm_num)

/-! ### C6: duration_hours validation and clamping -/

/-- Counterexample to C6 as stated: a request with duration_hours = 200
(inside the claimed accepted range [1, 730]) is rejected by the pydantic
schema validation (ge=1, le=168) before the handler's clamp runs, and no pin
is created. -/
theorem create_pin_duration_counterexample :
    169 ≤ reqLong.duration_hours ∧ reqLong.duration_hours ≤ 730 ∧
    create_pin 0 reqLong none true false = Except.error CreateErr.validation422 :=
  ⟨by decide, by decide, rfl⟩

/-- C6 amended.  A create-pin request succeeds only when duration_hours lies
in the schema range [1, 168]; there the handler clamp max(1, min(d, 730)) is
the identity, so the created pin expires exactly duration_hours hours after
its creation time.  Requests with duration_hours in [169, 730] are rejected
by validation, not clamped. -/
theorem create_pin_duration (now : Int) (req : PinCreate) (dev : Option Device)
    (contentOk isDup : Bool) (devOut : Option Device) (p : Pin)
    (hok : create_pin now req dev contentOk isDup = Except.ok (devOut, p)) :
    1 ≤ req.duration_hours ∧ req.duration_hours ≤ 168 ∧
    p.created_at = now ∧
    p.expires_at = now + clampedDuration req.duration_hours * HOUR ∧
    p.expires_at = now + req.duration_hours * HOUR := by
  have hv : pinCreateValid req = true := by
    by_contra hnv
    simp [create_pin, hnv] at hok
  have hdur : 1 ≤ req.duration_hours ∧ req.duration_hours ≤ 168 := by
    simp only [pinCreateValid, Bool.and_eq_true, decide_eq_true_eq] at hv
    exact ⟨hv.1.2, hv.2⟩
  have hclamp : clampedDuration req.duration_hours = req.duration_hours := by
    simp only [clampedDuration]
    omega
  have hp : p = createdPin now (clampedDuration req.duration_hours) req.is_community := by
    rcases contentOk with _ | _
    · simp [create_pin, hv] at hok
    · rcases dev with _ | d0
      · simp [create_pin, hv] at hok
        exact hok.2.symm
      · rcases hcd : check_device_rate_limit d0 now with ⟨d1, within⟩
        simp only [create_pin, hv] at hok
        rw [hcd] at hok
        rcases within with _ | _
        · simp at hok
        · rcases isDup with _ | _
          · simp at hok
            exact hok.2.symm
          · simp at hok
  subst hp
  refine ⟨hdur.1, hdur.2, rfl, by simp [createdPin], ?_⟩
  simp [createdPin, hclamp]

/-- Witness for the amended C6: a 24-hour request by an anonymous caller. -/
theorem create_pin_duration_witness :
    1 ≤ reqDay.duration_hours ∧ reqDay.duration_hours ≤ 168 ∧
    (createdPin 0 (clampedDuration reqDay.duration_hours) false).created_at = 0 ∧
    (createdPin 0 (clampedDuration reqDay.duration_hours) false).expires_at =
      0 + clampedDuration reqDay.duration_hours * HOUR ∧
    (createdPin 0 (clampedDuration reqDay.duration_hours) false).expires_at =
      0 + reqDay.duration_hours * HOUR :=
  create_pin_duration 0 reqDay none true false none
    (createdPin 0 (clampedDuration reqDay.duration_hours) false) rfl

/-! ### C7: the daily creation quota with lazy calendar-day reset -/

/-- C7.  With a valid request and accepted content: a device that already
created 20 pins, whose last reset date is not before today's date, is
rejected with the quota error and nothing is created; and when the calendar
day has rolled over past the last reset date, the counter is lazily reset, so
creation succeeds and the device ends the request with counter 1 and the
reset stamped at now. -/
theorem daily_quota (now : Int) (req : PinCreate) (dev : Device)
    (contentOk isDup : Bool)
    (hvalid : pinCreateValid req = true) (hcontent : contentOk = true) :
    ((20 ≤ dev.pins_created_today ∧
      (∀ r, dev.last_pin_reset = some r → ¬ dateOf r < dateOf now)) →
      create_pin now req (some dev) contentOk isDup =
        Except.error CreateErr.quotaExceeded) ∧
    (∀ r, dev.last_pin_reset = some r → dateOf r < dateOf now → isDup = false →
      create_pin now req (some dev) contentOk isDup =
        Except.ok (some { pins_created_today := 1, last_pin_reset := some now },
          createdPin now (clampedDuration req.duration_hours) req.is_community)) := by
  subst hcontent
  constructor
  · rintro ⟨h20, hday⟩
    have hlt : ¬ dev.pins_created_today < 20 := by omega
    rcases hlr : dev.last_pin_reset with _ | r
    · simp [create_pin, hvalid, check_device_rate_limit, rateLimitReset, hlr, hlt]
    · have hnd := hday r hlr
      simp [create_pin, hvalid, check_device_rate_limit, rateLimitReset, hlr,
        hnd, hlt]
  · intro r hlr hroll hdup
    subst hdup
    simp [create_pin, hvalid, check_device_rate_limit, rateLimitReset, hlr, hroll]

/-- Witness for C7: devAtQuota is rejected at a same-day instant and succeeds
after the day rolls over. -/
theorem daily_quota_witness :
    create_pin 50000 reqDay (some devAtQuota) true false =
      Except.error CreateErr.quotaExceeded ∧
    create_pin 90000 reqDay (some devAtQuota) true false =
      Except.ok (some { pins_created_today := 1, last_pin_reset := some 90000 },
        createdPin 90000 (clampedDuration reqDay.duration_hours)
          reqDay.is_community) := by
  have h1 := daily_quota 50000 reqDay devAtQuota true false (by decide) rfl
  have h2 := daily_quota 90000 reqDay devAtQuota true false (by decide) rfl
  refine ⟨h1.1 ⟨by decide, ?_⟩, h2.2 43200 rfl (by decide) rfl⟩
  intro r hr
  simp only [devAtQuota, Option.some.injEq] at hr
  subst hr
  decide

/-! ### C8: the per-(device, pin) stats poll cooldown -/

/-- C8.  A stats poll is rejected exactly when strictly less than 30 seconds
have elapsed since the stored last accepted poll of the (device, pin) pair,
and an accepted poll stamps the pair with now; concretely, with an empty
store, a poll at t >= 30 is accepted, a repeat at t+10 is rejected with 20
seconds remaining, and a repeat at t+31 is accepted. -/
theorem stats_cooldown_spec :
    (∀ (cd : StatsCooldown) (dev : String) (pinId : Int) (now : ℚ),
      ((statsCooldownGate cd dev pinId now).1.isSome = true ↔
        now - cooldownLookup cd dev pinId < STATS_COOLDOWN_SECONDS) ∧
      ((statsCooldownGate cd dev pinId now).1 = none →
        cooldownLookup (statsCooldownGate cd dev pinId now).2 dev pinId = now)) ∧
    (∀ (dev : String) (pinId : Int) (t : ℚ), 30 ≤ t →
      (statsCooldownGate [] dev pinId t).1 = none ∧
      (statsCooldownGate (statsCooldownGate [] dev pinId t).2 dev pinId
        (t + 10)).1 = some 20 ∧
      (statsCooldownGate (statsCooldownGate [] dev pinId t).2 dev pinId
        (t + 31)).1 = none) := by
  constructor
  · intro cd dev pinId now
    constructor
    · simp only [statsCooldownGate]
      split
      · rename_i hc
        simpa using hc
      · rename_i hc
        simpa using hc
    · simp only [statsCooldownGate]
      split
      · intro h
        simp at h
      · intro _
        simp [cooldownLookup]
  · intro dev pinId t ht
    have hlast0 : cooldownLookup [] dev pinId = 0 := rfl
    have hcond1 : ¬ (t - cooldownLookup [] dev pinId < STATS_COOLDOWN_SECONDS) := by
      rw [hlast0, STATS_COOLDOWN_SECONDS]
      intro h
      linarith
    have e1 : statsCooldownGate [] dev pinId t = (none, [((dev, pinId), t)]) := by
      simp [statsCooldownGate, hcond1]
    have hlast : cooldownLookup [((dev, pinId), t)] dev pinId = t := by
      simp [cooldownLookup]
    refine ⟨by rw [e1], ?_, ?_⟩
    · rw [e1]
      have hcond2 : t + 10 - cooldownLookup [((dev, pinId), t)] dev pinId <
          STATS_COOLDOWN_SECONDS := by
        rw [hlast, STATS_COOLDOWN_SECONDS]
        linarith
      have harith : STATS_COOLDOWN_SECONDS -
          (t + 10 - cooldownLookup [((dev, pinId), t)] dev pinId) = 20 := by
        rw [hlast, STATS_COOLDOWN_SECONDS]
        ring
      simp only [statsCooldownGate, if_pos hcond2, harith]
      decide
    · rw [e1]
      have hcond3 : ¬ (t + 31 - cooldownLookup [((dev, pinId), t)] dev pinId <
          STATS_COOLDOWN_SECONDS) := by
        rw [hlast, STATS_COOLDOWN_SECONDS]
        intro h
        linarith
      simp [statsCooldownGate, hcond3]

/-- Witness for C8: the iff at a concrete store and the scenario at t = 100. -/
theorem stats_cooldown_spec_witness :
    (((statsCooldownGate [] "dev" 5 (100:ℚ)).1.isSome = true ↔
        (100:ℚ) - cooldownLookup [] "dev" 5 < STATS_COOLDOWN_SECONDS) ∧
      ((statsCooldownGate [] "dev" 5 (100:ℚ)).1 = none →
        cooldownLookup (statsCooldownGate [] "dev" 5 (100:ℚ)).2 "dev" 5 = 100)) ∧
    ((statsCooldownGate [] "dev" 5 (100:ℚ)).1 = none ∧
      (statsCooldownGate (statsCooldownGate [] "dev" 5 (100:ℚ)).2 "dev" 5
        (100 + 10)).1 = some 20 ∧
      (statsCooldownGate (statsCooldownGate [] "dev" 5 (100:ℚ)).2 "dev" 5
        (100 + 31)).1 = none) :=
  ⟨stats_cooldown_spec.1 [] "dev" 5 100,
   stats_cooldown_spec.2 "dev" 5 100 (by norm_num)⟩

end Serendipity
